import Mathlib

/-!
Verification of the request-handling and response-normalization contract of the
Mini-BookedAI SDK services (flight search and stay search).  The two Rust
services under src/mcps are shallowly embedded: serde_json values become the
inductive type `Json`, fallible extraction becomes `Option`, the Rust `?`
early-return chains become nested matches, a possible Rust panic (out-of-bounds
`Vec` indexing) is made explicit through the result type `PRes`, and the `i32`
casts are modelled by wrapping into the signed 32-bit range.  Floating point
numbers carried inside JSON are modelled as rationals: the services never do
arithmetic on them, they only copy fixed literals around.
-/

/-- Json models a serde_json `Value`.  Numbers are split, as in serde_json,
into integrally-stored numbers (`i64`/`u64`, modelled by `Int`) and
floating-point numbers (modelled by `Rat`, since the services only store and
compare fixed decimal literals). -/
inductive Json where
  | null : Json
  | bool : Bool → Json
  | int : Int → Json
  | float : Rat → Json
  | str : String → Json
  | arr : List Json → Json
  | obj : List (String × Json) → Json

/-- getField models `Value::get(key)` on JSON: `Some` field value for an object
that has the key (first occurrence), `None` otherwise. -/
def Json.getField : Json → String → Option Json
  | .obj fields, key => (fields.find? (fun f => f.1 = key)).map (fun f => f.2)
  | _, _ => none

/-- index models the infallible `Value::index` (`value["key"]`): missing keys
and non-objects give JSON `null`. -/
def Json.index (j : Json) (key : String) : Json :=
  (j.getField key).getD .null

/-- asStr models `Value::as_str`. -/
def Json.asStr : Json → Option String
  | .str s => some s
  | _ => none

/-- asArr models `Value::as_array`. -/
def Json.asArr : Json → Option (List Json)
  | .arr xs => some xs
  | _ => none

/-- asInt models `Value::as_i64` (only integrally-stored numbers). -/
def Json.asInt : Json → Option Int
  | .int n => some n
  | _ => none

/-- asF64 models `Value::as_f64`: any stored number yields a numeric value. -/
def Json.asF64 : Json → Option Rat
  | .int n => some (n : Rat)
  | .float q => some q
  | _ => none

/-- i32ofNat models the Rust cast `usize as i32`: wrap into `[-2^31, 2^31)`. -/
def i32ofNat (n : Nat) : Int :=
  ((n : Int) + 2 ^ 31) % 2 ^ 32 - 2 ^ 31

/-- decodeReqString models serde's decoding of a required `String` struct
field from an optional JSON field value. -/
def decodeReqString : Option Json → Option String
  | some (.str s) => some s
  | _ => none

/-- decodeOptString models serde's decoding of an `Option<String>` struct
field: absent or `null` gives `None`; a present value must be a string. -/
def decodeOptString : Option Json → Option (Option String)
  | none => some none
  | some .null => some none
  | some (.str s) => some (some s)
  | some _ => none

/-- decodeOptI32 models serde's decoding of an `Option<i32>` struct field:
absent or `null` gives `None`; a present value must be an integrally-stored
number fitting in `i32`. -/
def decodeOptI32 : Option Json → Option (Option Int)
  | none => some none
  | some .null => some none
  | some (.int n) => if -(2 ^ 31) ≤ n ∧ n < 2 ^ 31 then some (some n) else none
  | some _ => none

/-- lowercaseChar models the Unicode lowercase mapping of one character as
far as the geocoder can observe it.  `String::to_lowercase` applies the full
Unicode lowercase mapping; the geocoder only compares the result with plain
ASCII table keys, and exactly two families of code points lowercase to ASCII
under Unicode: the letters `A`-`Z` and U+212A KELVIN SIGN (which lowercases
to `k`).  The single one-to-many lowercase expansion, U+0130 → `i` followed
by U+0307 COMBINING DOT ABOVE, always carries the non-ASCII combining mark,
and every other code point lowercases (or stays) outside ASCII; none of those
can make a string equal to an ASCII-only key, so mapping them to themselves
is observationally equivalent for `geocode_location`. -/
def lowercaseChar (c : Char) : Char :=
  if c = '\u212A' then 'k' else c.toLower

/-- toLowercaseModel models Rust's `str::to_lowercase` per character via
`lowercaseChar`; it agrees with the full Unicode lowercase conversion on
equality with every ASCII-only string, for every input. -/
def toLowercaseModel (s : String) : String := ⟨s.data.map lowercaseChar⟩

/-- PRes makes a possible Rust panic explicit: a computation either panics
(aborting the whole request) or returns a value. -/
inductive PRes (α : Type) where
  | panic : PRes α
  | ok : α → PRes α
deriving DecidableEq

namespace Flights

/-- FlightSearchRequest embeds the struct of the same name
(src/mcps/mcp_duffel_flights/src/main.rs, lines 11-19).  The `i32` field is
modelled by `Int` (its decoder enforces the 32-bit range). -/
structure FlightSearchRequest where
  origin : String
  destination : String
  departure_date : String
  return_date : Option String
  passengers : Option Int
  cabin_class : Option String
deriving DecidableEq

/-- FlightOffer embeds the struct of the same name (flights main.rs 21-33). -/
structure FlightOffer where
  id : String
  price : String
  currency : String
  departure_time : String
  arrival_time : String
  duration : String
  airline : String
  flight_number : String
  aircraft : Option String
  stops : Int
deriving DecidableEq

/-- FlightSearchResponse embeds the struct of the same name
(flights main.rs 35-40). -/
structure FlightSearchResponse where
  offers : List FlightOffer
  total_results : Int
  search_id : String
deriving DecidableEq

/-- flightSearchPayload embeds the payload construction of `search_flights`
(flights main.rs 58-90): N passenger objects of type "adult" (empty when the
requested count is not positive, as `for _ in 0..n`), an outbound slice, an
inbound slice exactly when `return_date` is present, and the cabin class
defaulted to "economy". -/
def flightSearchPayload (request : FlightSearchRequest) : Json :=
  let passengers : List Json :=
    List.replicate (request.passengers.getD 1).toNat (.obj [("type", .str "adult")])
  let outbound : Json := .obj
    [("origin", .str request.origin),
     ("destination", .str request.destination),
     ("departure_date", .str request.departure_date)]
  let slices : List Json :=
    match request.return_date with
    | some return_date =>
        [outbound,
         .obj [("origin", .str request.destination),
               ("destination", .str request.origin),
               ("departure_date", .str return_date)]]
    | none => [outbound]
  .obj [("data", .obj
    [("slices", .arr slices),
     ("passengers", .arr passengers),
     ("cabin_class", .str (request.cabin_class.getD "economy"))])]

/-- parse_flight_offer embeds the function of the same name (flights main.rs
154-189).  The Rust code indexes `&slices[0]` and `&segments[0]` into plain
`Vec`s, which panics when the array is empty; those two spots are the only
possible panics and are modelled by `PRes.panic`.  Every other missing or
mistyped field makes a `?` operator return `None`, i.e. the item is dropped. -/
def parse_flight_offer (offer : Json) : PRes (Option FlightOffer) :=
  match (offer.index "id").asStr, (offer.index "total_amount").asStr,
        (offer.index "total_currency").asStr with
  | some id, some total_amount, some currency =>
    match (offer.index "slices").asArr with
    | some slices =>
      match slices with
      | [] => .panic
      | first_slice :: _ =>
        match (first_slice.index "segments").asArr with
        | some segments =>
          match segments with
          | [] => .panic
          | first_segment :: _ =>
            match (first_segment.index "departing_at").asStr,
                  (first_segment.index "arriving_at").asStr,
                  (first_slice.index "duration").asStr,
                  ((first_segment.index "marketing_carrier").index "name").asStr,
                  (first_segment.index "marketing_carrier_flight_number").asStr with
            | some departure_time, some arrival_time, some duration,
              some airline, some flight_number =>
                .ok (some
                  { id := id
                    price := total_amount
                    currency := currency
                    departure_time := departure_time
                    arrival_time := arrival_time
                    duration := duration
                    airline := airline
                    flight_number := flight_number
                    aircraft := ((first_segment.index "aircraft").index "name").asStr
                    stops := i32ofNat segments.length - 1 })
            | _, _, _, _, _ => .ok none
        | none => .ok none
    | none => .ok none
  | _, _, _ => .ok none

/-- collectFlightOffers embeds the parsing loop of `search_flights` (flights
main.rs 139-145) applied to a list of raw offers: parsed offers are pushed in
order, unparseable items are skipped, and a panic inside
`parse_flight_offer` aborts everything. -/
def collectFlightOffers : List Json → PRes (List FlightOffer)
  | [] => .ok []
  | j :: rest =>
    match parse_flight_offer j with
    | .panic => .panic
    | .ok none => collectFlightOffers rest
    | .ok (some o) =>
      match collectFlightOffers rest with
      | .panic => .panic
      | .ok os => .ok (o :: os)

/-- flightResponseOfArray embeds the tail of `search_flights` (flights main.rs
139-151): normalize the first 10 items of the provider offer array, and build
the response with `total_results` the `i32` cast of the full array length. -/
def flightResponseOfArray (offers_array : List Json) (offer_request_id : String) :
    PRes FlightSearchResponse :=
  match collectFlightOffers (offers_array.take 10) with
  | .panic => .panic
  | .ok flight_offers =>
    .ok { offers := flight_offers
          total_results := i32ofNat offers_array.length
          search_id := offer_request_id }

/-- flightParseOpt views `parse_flight_offer` as an `Option`-valued normalizer
(used to state which items survive when no panic occurs). -/
def flightParseOpt (j : Json) : Option FlightOffer :=
  match parse_flight_offer j with
  | .ok (some o) => some o
  | _ => none

end Flights

namespace Flights

/-- flightEntry is the chunk of text appended by one iteration of the loop in
`format_flight_results` (flights main.rs 198-240), for the offer at 0-based
index `i`. -/
def flightEntry (i : Nat) (offer : FlightOffer) : String :=
  toString (i + 1) ++ ". " ++ offer.airline ++ " " ++ offer.flight_number ++
    " - " ++ offer.price ++ " " ++ offer.currency ++ "\n" ++
  ("   Departure: " ++ offer.departure_time ++ "\n") ++
  ("   Arrival: " ++ offer.arrival_time ++ "\n") ++
  ("   Duration: " ++ offer.duration ++ "\n") ++
  (if offer.stops > 0 then "   Stops: " ++ toString offer.stops ++ "\n"
   else "   Direct flight\n") ++
  (match offer.aircraft with
   | some aircraft => "   Aircraft: " ++ aircraft ++ "\n"
   | none => "") ++
  "\n"

/-- formatFlightLoop is the enumerated accumulation loop of
`format_flight_results`. -/
def formatFlightLoop : List FlightOffer → Nat → String → String
  | [], _, result => result
  | offer :: rest, i, result =>
    formatFlightLoop rest (i + 1) (result ++ flightEntry i offer)

/-- format_flight_results embeds the function of the same name (flights
main.rs 191-244). -/
def format_flight_results (response : FlightSearchResponse) : String :=
  if response.offers.isEmpty then
    "No flights found for the specified criteria."
  else
    let result := "Found " ++ toString response.total_results ++ " flight offers:\n\n"
    formatFlightLoop response.offers 0 result ++ ("Search ID: " ++ response.search_id)

/-- decodeFlightSearchRequest models
`serde_json::from_value::<FlightSearchRequest>`: the arguments must be a JSON
object, required string fields must be present strings, optional fields may be
absent or null, and `passengers` must fit in `i32`.  (Unknown extra fields are
ignored, as by default in serde.) -/
def decodeFlightSearchRequest (j : Json) : Option FlightSearchRequest :=
  match j with
  | .obj _ =>
    match decodeReqString (j.getField "origin"),
          decodeReqString (j.getField "destination"),
          decodeReqString (j.getField "departure_date"),
          decodeOptString (j.getField "return_date"),
          decodeOptI32 (j.getField "passengers"),
          decodeOptString (j.getField "cabin_class") with
    | some origin, some destination, some departure_date,
      some return_date, some passengers, some cabin_class =>
        some { origin := origin
               destination := destination
               departure_date := departure_date
               return_date := return_date
               passengers := passengers
               cabin_class := cabin_class }
    | _, _, _, _, _, _ => none
  | _ => none

/-- errorResponse is the JSON-RPC error object shape used throughout
`handle_request` in both services. -/
def errorResponse (code : Int) (message : String) (id : Json) : Json :=
  .obj [("jsonrpc", .str "2.0"),
        ("error", .obj [("code", .int code), ("message", .str message)]),
        ("id", id)]

/-- textResultResponse is the JSON-RPC success shape wrapping the formatted
text, used by the `tools/call` success branch in both services. -/
def textResultResponse (text : String) (id : Json) : Json :=
  .obj [("jsonrpc", .str "2.0"),
        ("result", .obj [("content", .arr [.obj [("type", .str "text"), ("text", .str text)]])]),
        ("id", id)]

/-- initResultFlights is the static `initialize` result of the flights service
(flights main.rs 260-275). -/
def initResultFlights (id : Json) : Json :=
  .obj [("jsonrpc", .str "2.0"),
        ("result", .obj
          [("protocolVersion", .str "2024-11-05"),
           ("capabilities", .obj [("tools", .obj [])]),
           ("serverInfo", .obj
             [("name", .str "duffel-flights-mcp"), ("version", .str "0.1.0")])]),
        ("id", id)]

/-- toolsListFlights is the static `tools/list` result of the flights service
(flights main.rs 276-319). -/
def toolsListFlights (id : Json) : Json :=
  .obj [("jsonrpc", .str "2.0"),
        ("result", .obj [("tools", .arr
          [.obj [("name", .str "search_flights"),
                 ("description", .str "Search for flights using the Duffel API"),
                 ("inputSchema", .obj
                   [("type", .str "object"),
                    ("properties", .obj
                      [("origin", .obj [("type", .str "string"),
                         ("description", .str "Origin airport code (e.g., 'JFK', 'LAX')")]),
                       ("destination", .obj [("type", .str "string"),
                         ("description", .str "Destination airport code (e.g., 'LHR', 'CDG')")]),
                       ("departure_date", .obj [("type", .str "string"),
                         ("description", .str "Departure date in YYYY-MM-DD format")]),
                       ("return_date", .obj [("type", .str "string"),
                         ("description", .str "Return date in YYYY-MM-DD format (optional, for round-trip)")]),
                       ("passengers", .obj [("type", .str "integer"),
                         ("description", .str "Number of passengers (default: 1)")]),
                       ("cabin_class", .obj [("type", .str "string"),
                         ("description", .str "Cabin class: economy, premium_economy, business, first (default: economy)")])]),
                    ("required", .arr [.str "origin", .str "destination", .str "departure_date"])])]])]),
        ("id", id)]

/-- handle_request embeds the dispatcher of the same name (flights main.rs
255-394).  The outbound provider pipeline (`search_flights`, an HTTP
interaction) is abstracted as the oracle `pipeline`: the decoded request goes
in, and either a search response or the provider failure text comes out.
Decode-error messages from serde are modelled loosely (the dispatcher only
interpolates them into the error message). -/
def handle_request (pipeline : FlightSearchRequest → Except String FlightSearchResponse)
    (request : Json) : Json :=
  let method := ((request.index "method").asStr).getD ""
  let id := request.index "id"
  if method = "initialize" then initResultFlights id
  else if method = "tools/list" then toolsListFlights id
  else if method = "tools/call" then
    let params := request.index "params"
    let tool_name := ((params.index "name").asStr).getD ""
    let arguments := params.index "arguments"
    if tool_name = "search_flights" then
      match decodeFlightSearchRequest arguments with
      | some search_request =>
        match pipeline search_request with
        | .ok search_response =>
            textResultResponse (format_flight_results search_response) id
        | .error e => errorResponse (-32000) ("Flight search failed: " ++ e) id
      | none => errorResponse (-32602) "Invalid parameters: could not decode arguments" id
    else errorResponse (-32601) "Method not found" id
  else errorResponse (-32601) "Method not found" id

end Flights

namespace Stays

/-- StaySearchRequest embeds the struct of the same name
(src/mcps/mcp_duffel_stays/src/main.rs, lines 10-18). -/
structure StaySearchRequest where
  location : String
  check_in_date : String
  check_out_date : String
  adults : Option Int
  children : Option Int
  rooms : Option Int
deriving DecidableEq

/-- StayOffer embeds the struct of the same name (stays main.rs 20-33).  The
`f64` rating is modelled as a rational. -/
structure StayOffer where
  id : String
  hotel_name : String
  hotel_rating : Option Rat
  location : String
  total_amount : String
  currency : String
  check_in_date : String
  check_out_date : String
  room_type : Option String
  amenities : List String
  cancellation_policy : Option String
deriving DecidableEq

/-- StaySearchResponse embeds the struct of the same name (stays main.rs
35-41). -/
structure StaySearchResponse where
  offers : List StayOffer
  total_results : Int
  search_id : String
  location_searched : String
deriving DecidableEq

/-- geocode_location embeds the function of the same name (stays main.rs
124-153): a static case-insensitive city table with a silent London fallback.
Coordinates are the source's decimal literals read as rationals; lowercasing
is modelled by `toLowercaseModel`, which agrees with the Unicode conversion on
equality with the plain-ASCII table keys for every input string. -/
def geocode_location (location : String) : Rat × Rat :=
  let l := toLowercaseModel location
  if l = "new york" then (40.7128, -74.0060)
  else if l = "nyc" then (40.7128, -74.0060)
  else if l = "london" then (51.5074, -0.1278)
  else if l = "paris" then (48.8566, 2.3522)
  else if l = "tokyo" then (35.6762, 139.6503)
  else if l = "sydney" then (-33.8688, 151.2093)
  else if l = "los angeles" then (34.0522, -118.2437)
  else if l = "la" then (34.0522, -118.2437)
  else if l = "chicago" then (41.8781, -87.6298)
  else if l = "melbourne" then (-37.8136, 144.9631)
  else if l = "dubai" then (25.2048, 55.2708)
  else if l = "singapore" then (1.3521, 103.8198)
  else if l = "miami" then (25.7617, -80.1918)
  else if l = "san francisco" then (37.7749, -122.4194)
  else if l = "las vegas" then (36.1699, -115.1398)
  else if l = "toronto" then (43.6532, -79.3832)
  else if l = "berlin" then (52.5200, 13.4050)
  else if l = "rome" then (41.9028, 12.4964)
  else if l = "madrid" then (40.4168, -3.7038)
  else if l = "amsterdam" then (52.3676, 4.9041)
  else if l = "barcelona" then (41.3851, 2.1734)
  else (51.5074, -0.1278)

/-- staySearchPayload embeds the payload construction of `search_stays` (stays
main.rs 59-92): adult guest objects then child guest objects (each count
defaulted and run through `for _ in 0..n`, so non-positive counts contribute
nothing), a 10-unit radius around the geocoded coordinates, and the room count
defaulted to 1. -/
def staySearchPayload (request : StaySearchRequest) : Json :=
  let coordinates := geocode_location request.location
  let guests : List Json :=
    List.replicate (request.adults.getD 1).toNat (.obj [("type", .str "adult")]) ++
    List.replicate (request.children.getD 0).toNat (.obj [("type", .str "child")])
  .obj [("data", .obj
    [("location", .obj
      [("radius", .int 10),
       ("geographic_coordinates", .obj
         [("latitude", .float coordinates.1),
          ("longitude", .float coordinates.2)])]),
     ("check_in_date", .str request.check_in_date),
     ("check_out_date", .str request.check_out_date),
     ("guests", .arr guests),
     ("rooms", .int (request.rooms.getD 1))])]

/-- parse_stay_result embeds the function of the same name (stays main.rs
206-250).  Only `id` and `accommodation.name` are required (`?`); every other
field falls back to a default.  No panic is possible here: all lookups go
through the infallible `Value` index. -/
def parse_stay_result (result : Json) (request : StaySearchRequest) : Option StayOffer :=
  let accommodation := result.index "accommodation"
  match (result.index "id").asStr, (accommodation.index "name").asStr with
  | some id, some hotel_name =>
    let hotel_rating := (accommodation.index "rating").asF64
    let location_name :=
      ((((accommodation.index "location").index "address").index "city_name").asStr).getD
        request.location
    let total_amount := ((result.index "cheapest_rate_total_amount").asStr).getD "0.00"
    let currency := ((result.index "cheapest_rate_currency").asStr).getD "USD"
    let amenities :=
      match ((accommodation.index "amenities").asArr) with
      | some arr => arr.filterMap (fun a => ((a.index "description").asStr))
      | none => ["WiFi"]
    some { id := id
           hotel_name := hotel_name
           hotel_rating := hotel_rating
           location := location_name
           total_amount := total_amount
           currency := currency
           check_in_date := request.check_in_date
           check_out_date := request.check_out_date
           room_type := none
           amenities := amenities
           cancellation_policy := none }
  | _, _ => none

/-- parse_duffel_stays_response embeds the function of the same name (stays
main.rs 155-204): find `data.results` as an array (otherwise the whole search
errors), normalize the first 10 items dropping the unparseable ones, and
report the full array length (cast to `i32`) plus `meta.request_id` (or
"unknown"). -/
def parse_duffel_stays_response (response_data : Json) (request : StaySearchRequest) :
    Except String StaySearchResponse :=
  match (response_data.getField "data").bind
        (fun data => data.getField "results") |>.bind Json.asArr with
  | none => .error "No search results found in API response"
  | some search_results =>
    .ok { offers := (search_results.take 10).filterMap
            (fun result => parse_stay_result result request)
          total_results := i32ofNat search_results.length
          search_id := (((response_data.index "meta").index "request_id").asStr).getD "unknown"
          location_searched := request.location }

/-- fmtFixed1 models the Rust formatting `{:.1}` used for the hotel rating:
round to one decimal place.  (Rust formats an `f64`; the exact tie-breaking of
binary floats is irrelevant here — no claim inspects the digits.) -/
def fmtFixed1 (q : Rat) : String :=
  let n : Int := round (q * 10)
  let sign := if n < 0 then "-" else ""
  sign ++ toString (n.natAbs / 10) ++ "." ++ toString (n.natAbs % 10)

/-- stayEntry is the chunk of text appended by one iteration of the loop in
`format_stay_results` (stays main.rs 259-308), for the offer at 0-based index
`i`. -/
def stayEntry (i : Nat) (offer : StayOffer) : String :=
  toString (i + 1) ++ ". " ++ offer.hotel_name ++ " - " ++ offer.total_amount ++
    " " ++ offer.currency ++ "\n" ++
  (match offer.hotel_rating with
   | some rating => "   Rating: " ++ fmtFixed1 rating ++ "/5.0 stars\n"
   | none => "") ++
  ("   Location: " ++ offer.location ++ "\n") ++
  ("   Check-in: " ++ offer.check_in_date ++ " | Check-out: " ++ offer.check_out_date ++ "\n") ++
  (match offer.room_type with
   | some room_type => "   Room: " ++ room_type ++ "\n"
   | none => "") ++
  (if offer.amenities.isEmpty then ""
   else "   Amenities: " ++ String.intercalate ", " offer.amenities ++ "\n") ++
  (match offer.cancellation_policy with
   | some policy => "   Cancellation: " ++ policy ++ "\n"
   | none => "") ++
  "\n"

/-- formatStayLoop is the enumerated accumulation loop of
`format_stay_results`. -/
def formatStayLoop : List StayOffer → Nat → String → String
  | [], _, result => result
  | offer :: rest, i, result =>
    formatStayLoop rest (i + 1) (result ++ stayEntry i offer)

/-- format_stay_results embeds the function of the same name (stays main.rs
252-312). -/
def format_stay_results (response : StaySearchResponse) : String :=
  if response.offers.isEmpty then
    "No hotels found in " ++ response.location_searched ++ " for the specified dates."
  else
    let result := "Found " ++ toString response.total_results ++ " hotel offers in " ++
      response.location_searched ++ ":\n\n"
    formatStayLoop response.offers 0 result ++ ("Search ID: " ++ response.search_id)

/-- decodeStaySearchRequest models
`serde_json::from_value::<StaySearchRequest>`. -/
def decodeStaySearchRequest (j : Json) : Option StaySearchRequest :=
  match j with
  | .obj _ =>
    match decodeReqString (j.getField "location"),
          decodeReqString (j.getField "check_in_date"),
          decodeReqString (j.getField "check_out_date"),
          decodeOptI32 (j.getField "adults"),
          decodeOptI32 (j.getField "children"),
          decodeOptI32 (j.getField "rooms") with
    | some location, some check_in_date, some check_out_date,
      some adults, some children, some rooms =>
        some { location := location
               check_in_date := check_in_date
               check_out_date := check_out_date
               adults := adults
               children := children
               rooms := rooms }
    | _, _, _, _, _, _ => none
  | _ => none

/-- initResultStays is the static `initialize` result of the stays service
(stays main.rs 328-343). -/
def initResultStays (id : Json) : Json :=
  .obj [("jsonrpc", .str "2.0"),
        ("result", .obj
          [("protocolVersion", .str "2024-11-05"),
           ("capabilities", .obj [("tools", .obj [])]),
           ("serverInfo", .obj
             [("name", .str "duffel-stays-mcp"), ("version", .str "0.1.0")])]),
        ("id", id)]

/-- toolsListStays is the static `tools/list` result of the stays service
(stays main.rs 344-387). -/
def toolsListStays (id : Json) : Json :=
  .obj [("jsonrpc", .str "2.0"),
        ("result", .obj [("tools", .arr
          [.obj [("name", .str "search_stays"),
                 ("description", .str "Search for hotels and accommodations using the Duffel API"),
                 ("inputSchema", .obj
                   [("type", .str "object"),
                    ("properties", .obj
                      [("location", .obj [("type", .str "string"),
                         ("description", .str "Location/city to search for hotels (e.g., 'New York', 'Paris', 'Tokyo')")]),
                       ("check_in_date", .obj [("type", .str "string"),
                         ("description", .str "Check-in date in YYYY-MM-DD format")]),
                       ("check_out_date", .obj [("type", .str "string"),
                         ("description", .str "Check-out date in YYYY-MM-DD format")]),
                       ("adults", .obj [("type", .str "integer"),
                         ("description", .str "Number of adult guests (default: 1)")]),
                       ("children", .obj [("type", .str "integer"),
                         ("description", .str "Number of child guests (default: 0)")]),
                       ("rooms", .obj [("type", .str "integer"),
                         ("description", .str "Number of rooms needed (default: 1)")])]),
                    ("required", .arr [.str "location", .str "check_in_date", .str "check_out_date"])])]])]),
        ("id", id)]

/-- handle_request embeds the dispatcher of the stays service (stays main.rs
323-462), with the outbound `search_stays` pipeline abstracted as an oracle,
exactly as in the flights embedding. -/
def handle_request (pipeline : StaySearchRequest → Except String StaySearchResponse)
    (request : Json) : Json :=
  let method := ((request.index "method").asStr).getD ""
  let id := request.index "id"
  if method = "initialize" then initResultStays id
  else if method = "tools/list" then toolsListStays id
  else if method = "tools/call" then
    let params := request.index "params"
    let tool_name := ((params.index "name").asStr).getD ""
    let arguments := params.index "arguments"
    if tool_name = "search_stays" then
      match decodeStaySearchRequest arguments with
      | some search_request =>
        match pipeline search_request with
        | .ok search_response =>
            Flights.textResultResponse (format_stay_results search_response) id
        | .error e => Flights.errorResponse (-32000) ("Stay search failed: " ++ e) id
      | none => Flights.errorResponse (-32602) "Invalid parameters: could not decode arguments" id
    else Flights.errorResponse (-32601) "Method not found" id
  else Flights.errorResponse (-32601) "Method not found" id

end Stays

/-- respErrorCode reads the JSON-RPC error code of a response object, if
any. -/
def respErrorCode (j : Json) : Option Int :=
  ((j.index "error").index "code").asInt

/-- flightRequiredFieldsResolvable follows the specification's words for the
flight domain: the required fields are the offer id, total amount, currency,
the first slice's first segment departure/arrival timestamps, the slice
duration, the marketing carrier name and the marketing carrier flight number —
all reachable along the documented paths with the documented types. -/
def flightRequiredFieldsResolvable (offer : Json) : Bool :=
  ((offer.index "id").asStr).isSome &&
  ((offer.index "total_amount").asStr).isSome &&
  ((offer.index "total_currency").asStr).isSome &&
  (match (offer.index "slices").asArr with
   | some (first_slice :: _) =>
     (match (first_slice.index "segments").asArr with
      | some (first_segment :: _) =>
        ((first_segment.index "departing_at").asStr).isSome &&
        ((first_segment.index "arriving_at").asStr).isSome &&
        ((first_slice.index "duration").asStr).isSome &&
        (((first_segment.index "marketing_carrier").index "name").asStr).isSome &&
        ((first_segment.index "marketing_carrier_flight_number").asStr).isSome
      | _ => false)
   | _ => false)

/-- stayRequiredFieldsResolvable follows the specification's words for the
stay domain: the required fields are the result id and the accommodation
name. -/
def stayRequiredFieldsResolvable (result : Json) : Bool :=
  ((result.index "id").asStr).isSome &&
  (((result.index "accommodation").index "name").asStr).isSome

/-- sampleFlightOfferJson is a provider flight offer item on which every
required field resolves. -/
def sampleFlightOfferJson : Json :=
  .obj [("id", .str "off_1"),
        ("total_amount", .str "450.00"),
        ("total_currency", .str "USD"),
        ("slices", .arr
          [.obj [("duration", .str "PT7H"),
                 ("segments", .arr
                   [.obj [("departing_at", .str "2025-06-01T10:00:00"),
                          ("arriving_at", .str "2025-06-01T17:00:00"),
                          ("marketing_carrier", .obj [("name", .str "AirTest")]),
                          ("marketing_carrier_flight_number", .str "123")]])]])]

/-- sampleFlightOffer is the normalized form of `sampleFlightOfferJson`. -/
def sampleFlightOffer : Flights.FlightOffer :=
  { id := "off_1"
    price := "450.00"
    currency := "USD"
    departure_time := "2025-06-01T10:00:00"
    arrival_time := "2025-06-01T17:00:00"
    duration := "PT7H"
    airline := "AirTest"
    flight_number := "123"
    aircraft := none
    stops := 0 }

/-- emptySlicesOfferJson is a provider flight offer item whose `slices` field
is an empty array: the Rust parser reaches `&slices[0]` and panics. -/
def emptySlicesOfferJson : Json :=
  .obj [("id", .str "off_bad"),
        ("total_amount", .str "100.00"),
        ("total_currency", .str "USD"),
        ("slices", .arr [])]

/-- emptySegmentsOfferJson is a provider flight offer item whose first slice
has an empty `segments` array: the Rust parser reaches `&segments[0]` and
panics. -/
def emptySegmentsOfferJson : Json :=
  .obj [("id", .str "off_bad2"),
        ("total_amount", .str "100.00"),
        ("total_currency", .str "USD"),
        ("slices", .arr [.obj [("segments", .arr [])]])]

/-- sampleStayRequest is a concrete stay search request used to evaluate the
normalizer on concrete provider items. -/
def sampleStayRequest : Stays.StaySearchRequest :=
  { location := "Paris"
    check_in_date := "2025-06-01"
    check_out_date := "2025-06-03"
    adults := some 2
    children := none
    rooms := none }

/-- sampleStayResultJson is a provider stay result item with both required
fields and a nonempty amenities array. -/
def sampleStayResultJson : Json :=
  .obj [("id", .str "stay_1"),
        ("cheapest_rate_total_amount", .str "320.00"),
        ("cheapest_rate_currency", .str "EUR"),
        ("accommodation", .obj
          [("name", .str "Hotel Test"),
           ("amenities", .arr
             [.obj [("description", .str "Pool")],
              .obj [("type", .str "gym")]])])]

/-- emptyAmenitiesStayJson is a provider stay result item whose amenities
field is present but an empty array. -/
def emptyAmenitiesStayJson : Json :=
  .obj [("id", .str "stay_2"),
        ("accommodation", .obj
          [("name", .str "Hotel Empty"),
           ("amenities", .arr [])])]

/-- sampleStayOffer is the normalized form of `sampleStayResultJson` under
`sampleStayRequest`: the city falls back to the requested location and only
the amenity with a description survives. -/
def sampleStayOffer : Stays.StayOffer :=
  { id := "stay_1"
    hotel_name := "Hotel Test"
    hotel_rating := none
    location := "Paris"
    total_amount := "320.00"
    currency := "EUR"
    check_in_date := "2025-06-01"
    check_out_date := "2025-06-03"
    room_type := none
    amenities := ["Pool"]
    cancellation_policy := none }

/-- emptyAmenitiesStayOffer is the normalized form of
`emptyAmenitiesStayJson` under `sampleStayRequest`: every optional field is
absent and the amenity list is empty. -/
def emptyAmenitiesStayOffer : Stays.StayOffer :=
  { id := "stay_2"
    hotel_name := "Hotel Empty"
    hotel_rating := none
    location := "Paris"
    total_amount := "0.00"
    currency := "USD"
    check_in_date := "2025-06-01"
    check_out_date := "2025-06-03"
    room_type := none
    amenities := []
    cancellation_policy := none }

/-- stopsZeroNamedOffer is a flight offer whose airline string is itself the
text "Stops: 0"; it makes the formatter output contain that substring even
though the stops detail line is "Direct flight". -/
def stopsZeroNamedOffer : Flights.FlightOffer :=
  { id := "off_x"
    price := "1.00"
    currency := "USD"
    departure_time := "d"
    arrival_time := "a"
    duration := "t"
    airline := "Stops: 0"
    flight_number := "9"
    aircraft := none
    stops := 0 }

theorem i32ofNat_of_lt {n : Nat} (h : n < 2 ^ 31) : i32ofNat n = n := by
  unfold i32ofNat
  have h0 : (0 : Int) ≤ (n : Int) + 2 ^ 31 := by positivity
  have h1 : (n : Int) + 2 ^ 31 < 2 ^ 32 := by
    have : (n : Int) < 2 ^ 31 := by exact_mod_cast h
    omega
  rw [Int.emod_eq_of_lt h0 h1]
  omega

theorem collectFlightOffers_ok_eq :
    ∀ {l : List Json} {os : List Flights.FlightOffer},
      Flights.collectFlightOffers l = .ok os → os = l.filterMap Flights.flightParseOpt := by
  intro l
  induction l with
  | nil => intro os h; simpa [Flights.collectFlightOffers] using h.symm
  | cons j rest ih =>
    intro os h
    rw [Flights.collectFlightOffers] at h
    rcases hp : Flights.parse_flight_offer j with _ | o
    · rw [hp] at h; exact absurd h (by simp)
    · rcases o with _ | o
      · rw [hp] at h
        have := ih h
        simp [List.filterMap_cons, Flights.flightParseOpt, hp, this]
      · rw [hp] at h
        rcases hr : Flights.collectFlightOffers rest with _ | os'
        · rw [hr] at h; exact absurd h (by simp)
        · rw [hr] at h
          have hos : os = o :: os' := by
            have : PRes.ok (o :: os') = PRes.ok os := h
            cases this; rfl
          have := ih hr
          simp [List.filterMap_cons, Flights.flightParseOpt, hp, hos, this]

theorem length_filterMap_of_all_isSome {α β : Type} {f : α → Option β} :
    ∀ {l : List α}, (∀ a ∈ l, (f a).isSome) → (l.filterMap f).length = l.length := by
  intro l
  induction l with
  | nil => intro _; rfl
  | cons a rest ih =>
    intro h
    have ha : (f a).isSome := h a (by simp)
    rcases hfa : f a with _ | b
    · rw [hfa] at ha; simp at ha
    · simp [List.filterMap_cons, hfa, ih (fun x hx => h x (by simp [hx]))]

/-- C9: for a FlightSearchRequest with passengers = 2 and no return_date, the
outbound provider payload contains exactly 2 passenger entries of type "adult"
and exactly one slice (origin to destination with the departure date); in
general the payload contains one inbound slice (destination to origin, dated
with the return date) if and only if return_date is present, and cabin_class
defaults to "economy" when absent. -/
theorem C9_theorem (req : Flights.FlightSearchRequest) :
    (req.passengers = some 2 → req.return_date = none →
      ((Flights.flightSearchPayload req).index "data").index "passengers" =
        .arr (List.replicate 2 (.obj [("type", .str "adult")])) ∧
      ((Flights.flightSearchPayload req).index "data").index "slices" =
        .arr [.obj [("origin", .str req.origin),
                    ("destination", .str req.destination),
                    ("departure_date", .str req.departure_date)]]) ∧
    (req.return_date = none →
      ((Flights.flightSearchPayload req).index "data").index "slices" =
        .arr [.obj [("origin", .str req.origin),
                    ("destination", .str req.destination),
                    ("departure_date", .str req.departure_date)]]) ∧
    (∀ rd, req.return_date = some rd →
      ((Flights.flightSearchPayload req).index "data").index "slices" =
        .arr [.obj [("origin", .str req.origin),
                    ("destination", .str req.destination),
                    ("departure_date", .str req.departure_date)],
              .obj [("origin", .str req.destination),
                    ("destination", .str req.origin),
                    ("departure_date", .str rd)]]) ∧
    (req.cabin_class = none →
      ((Flights.flightSearchPayload req).index "data").index "cabin_class" =
        .str "economy") := by
  refine ⟨fun h1 h2 => ?_, fun h => ?_, fun rd h => ?_, fun h => ?_⟩ <;>
    simp [Flights.flightSearchPayload, Json.index, Json.getField, *]

/-- C9 witness: the specification's example request. -/
theorem C9_witness :
    (({ origin := "JFK", destination := "LHR", departure_date := "2025-06-01",
        return_date := none, passengers := some 2,
        cabin_class := none } : Flights.FlightSearchRequest).passengers = some 2) ∧
    ((Flights.flightSearchPayload
        { origin := "JFK", destination := "LHR", departure_date := "2025-06-01",
          return_date := none, passengers := some 2, cabin_class := none }).index
          "data").index "passengers" =
      .arr (List.replicate 2 (.obj [("type", .str "adult")])) ∧
    ((Flights.flightSearchPayload
        { origin := "JFK", destination := "LHR", departure_date := "2025-06-01",
          return_date := none, passengers := some 2, cabin_class := none }).index
          "data").index "slices" =
      .arr [.obj [("origin", .str "JFK"),
                  ("destination", .str "LHR"),
                  ("departure_date", .str "2025-06-01")]] ∧
    ((Flights.flightSearchPayload
        { origin := "JFK", destination := "LHR", departure_date := "2025-06-01",
          return_date := none, passengers := some 2, cabin_class := none }).index
          "data").index "cabin_class" = .str "economy" := by
  have h := C9_theorem
    { origin := "JFK", destination := "LHR", departure_date := "2025-06-01",
      return_date := none, passengers := some 2, cabin_class := none }
  exact ⟨rfl, (h.1 rfl rfl).1, (h.1 rfl rfl).2, h.2.2.2 rfl⟩

/-- C10: the documented minimums are not clamped: an explicitly supplied
passenger count of 0 or a negative value yields an empty passenger list in the
flight payload, and likewise an explicit non-positive adults (respectively
children) count contributes no adult (respectively child) entries to the stay
payload's guest list. -/
theorem C10_theorem :
    (∀ (req : Flights.FlightSearchRequest) (n : Int),
       req.passengers = some n → n ≤ 0 →
       ((Flights.flightSearchPayload req).index "data").index "passengers" =
         .arr []) ∧
    (∀ (req : Stays.StaySearchRequest) (a : Int),
       req.adults = some a → a ≤ 0 →
       ((Stays.staySearchPayload req).index "data").index "guests" =
         .arr (List.replicate (req.children.getD 0).toNat
           (.obj [("type", .str "child")]))) ∧
    (∀ (req : Stays.StaySearchRequest) (c : Int),
       req.children = some c → c ≤ 0 →
       ((Stays.staySearchPayload req).index "data").index "guests" =
         .arr (List.replicate (req.adults.getD 1).toNat
           (.obj [("type", .str "adult")]))) := by
  refine ⟨fun req n h hn => ?_, fun req a h ha => ?_, fun req c h hc => ?_⟩
  · simp [Flights.flightSearchPayload, Json.index, Json.getField, h,
      Int.toNat_of_nonpos hn]
  · simp [Stays.staySearchPayload, Json.index, Json.getField, h,
      Int.toNat_of_nonpos ha]
  · simp [Stays.staySearchPayload, Json.index, Json.getField, h,
      Int.toNat_of_nonpos hc]

/-- C10 witness: passengers = 0 gives an empty passenger list; adults = -1
with children = 2 gives a guest list of exactly the 2 child entries. -/
theorem C10_witness :
    ((Flights.flightSearchPayload
        { origin := "JFK", destination := "LHR", departure_date := "2025-06-01",
          return_date := none, passengers := some 0, cabin_class := none }).index
          "data").index "passengers" = .arr [] ∧
    ((Stays.staySearchPayload
        { location := "Paris", check_in_date := "2025-06-01",
          check_out_date := "2025-06-03", adults := some (-1),
          children := some 2, rooms := none }).index "data").index "guests" =
      .arr (List.replicate 2 (.obj [("type", .str "child")])) := by
  refine ⟨C10_theorem.1 _ 0 rfl le_rfl, ?_⟩
  have h := C10_theorem.2.1
    { location := "Paris", check_in_date := "2025-06-01",
      check_out_date := "2025-06-03", adults := some (-1),
      children := some 2, rooms := none } (-1) rfl (by norm_num)
  simpa using h

/-- geocodeKeys lists the lowercase table keys of `geocode_location`. -/
def geocodeKeys : List String :=
  ["new york", "nyc", "london", "paris", "tokyo", "sydney", "los angeles",
   "la", "chicago", "melbourne", "dubai", "singapore", "miami",
   "san francisco", "las vegas", "toronto", "berlin", "rome", "madrid",
   "amsterdam", "barcelona"]

/-- C7: geocode_location maps each known city name (compared
case-insensitively, aliases included) to its fixed coordinate pair and maps
every other string to the London fallback (51.5074, -0.1278); being a total
function of the embedding, it never fails. -/
theorem C7_theorem (s : String) :
    (toLowercaseModel s = "new york" → Stays.geocode_location s = (40.7128, -74.0060)) ∧
    (toLowercaseModel s = "nyc" → Stays.geocode_location s = (40.7128, -74.0060)) ∧
    (toLowercaseModel s = "london" → Stays.geocode_location s = (51.5074, -0.1278)) ∧
    (toLowercaseModel s = "paris" → Stays.geocode_location s = (48.8566, 2.3522)) ∧
    (toLowercaseModel s = "tokyo" → Stays.geocode_location s = (35.6762, 139.6503)) ∧
    (toLowercaseModel s = "sydney" → Stays.geocode_location s = (-33.8688, 151.2093)) ∧
    (toLowercaseModel s = "los angeles" → Stays.geocode_location s = (34.0522, -118.2437)) ∧
    (toLowercaseModel s = "la" → Stays.geocode_location s = (34.0522, -118.2437)) ∧
    (toLowercaseModel s = "chicago" → Stays.geocode_location s = (41.8781, -87.6298)) ∧
    (toLowercaseModel s = "melbourne" → Stays.geocode_location s = (-37.8136, 144.9631)) ∧
    (toLowercaseModel s = "dubai" → Stays.geocode_location s = (25.2048, 55.2708)) ∧
    (toLowercaseModel s = "singapore" → Stays.geocode_location s = (1.3521, 103.8198)) ∧
    (toLowercaseModel s = "miami" → Stays.geocode_location s = (25.7617, -80.1918)) ∧
    (toLowercaseModel s = "san francisco" → Stays.geocode_location s = (37.7749, -122.4194)) ∧
    (toLowercaseModel s = "las vegas" → Stays.geocode_location s = (36.1699, -115.1398)) ∧
    (toLowercaseModel s = "toronto" → Stays.geocode_location s = (43.6532, -79.3832)) ∧
    (toLowercaseModel s = "berlin" → Stays.geocode_location s = (52.5200, 13.4050)) ∧
    (toLowercaseModel s = "rome" → Stays.geocode_location s = (41.9028, 12.4964)) ∧
    (toLowercaseModel s = "madrid" → Stays.geocode_location s = (40.4168, -3.7038)) ∧
    (toLowercaseModel s = "amsterdam" → Stays.geocode_location s = (52.3676, 4.9041)) ∧
    (toLowercaseModel s = "barcelona" → Stays.geocode_location s = (41.3851, 2.1734)) ∧
    (toLowercaseModel s ∉ geocodeKeys → Stays.geocode_location s = (51.5074, -0.1278)) := by
  constructor
  · intro h; simp [Stays.geocode_location, h]
  constructor
  · intro h; simp [Stays.geocode_location, h]
  constructor
  · intro h; simp [Stays.geocode_location, h]
  constructor
  · intro h; simp [Stays.geocode_location, h]
  constructor
  · intro h; simp [Stays.geocode_location, h]
  constructor
  · intro h; simp [Stays.geocode_location, h]
  constructor
  · intro h; simp [Stays.geocode_location, h]
  constructor
  · intro h; simp [Stays.geocode_location, h]
  constructor
  · intro h; simp [Stays.geocode_location, h]
  constructor
  · intro h; simp [Stays.geocode_location, h]
  constructor
  · intro h; simp [Stays.geocode_location, h]
  constructor
  · intro h; simp [Stays.geocode_location, h]
  constructor
  · intro h; simp [Stays.geocode_location, h]
  constructor
  · intro h; simp [Stays.geocode_location, h]
  constructor
  · intro h; simp [Stays.geocode_location, h]
  constructor
  · intro h; simp [Stays.geocode_location, h]
  constructor
  · intro h; simp [Stays.geocode_location, h]
  constructor
  · intro h; simp [Stays.geocode_location, h]
  constructor
  · intro h; simp [Stays.geocode_location, h]
  constructor
  · intro h; simp [Stays.geocode_location, h]
  constructor
  · intro h; simp [Stays.geocode_location, h]
  · intro h
    have e1 : toLowercaseModel s ≠ "new york" := fun e => h (by rw [e]; decide)
    have e2 : toLowercaseModel s ≠ "nyc" := fun e => h (by rw [e]; decide)
    have e3 : toLowercaseModel s ≠ "london" := fun e => h (by rw [e]; decide)
    have e4 : toLowercaseModel s ≠ "paris" := fun e => h (by rw [e]; decide)
    have e5 : toLowercaseModel s ≠ "tokyo" := fun e => h (by rw [e]; decide)
    have e6 : toLowercaseModel s ≠ "sydney" := fun e => h (by rw [e]; decide)
    have e7 : toLowercaseModel s ≠ "los angeles" := fun e => h (by rw [e]; decide)
    have e8 : toLowercaseModel s ≠ "la" := fun e => h (by rw [e]; decide)
    have e9 : toLowercaseModel s ≠ "chicago" := fun e => h (by rw [e]; decide)
    have e10 : toLowercaseModel s ≠ "melbourne" := fun e => h (by rw [e]; decide)
    have e11 : toLowercaseModel s ≠ "dubai" := fun e => h (by rw [e]; decide)
    have e12 : toLowercaseModel s ≠ "singapore" := fun e => h (by rw [e]; decide)
    have e13 : toLowercaseModel s ≠ "miami" := fun e => h (by rw [e]; decide)
    have e14 : toLowercaseModel s ≠ "san francisco" := fun e => h (by rw [e]; decide)
    have e15 : toLowercaseModel s ≠ "las vegas" := fun e => h (by rw [e]; decide)
    have e16 : toLowercaseModel s ≠ "toronto" := fun e => h (by rw [e]; decide)
    have e17 : toLowercaseModel s ≠ "berlin" := fun e => h (by rw [e]; decide)
    have e18 : toLowercaseModel s ≠ "rome" := fun e => h (by rw [e]; decide)
    have e19 : toLowercaseModel s ≠ "madrid" := fun e => h (by rw [e]; decide)
    have e20 : toLowercaseModel s ≠ "amsterdam" := fun e => h (by rw [e]; decide)
    have e21 : toLowercaseModel s ≠ "barcelona" := fun e => h (by rw [e]; decide)
    simp only [Stays.geocode_location]
    rw [if_neg e1, if_neg e2, if_neg e3, if_neg e4, if_neg e5, if_neg e6,
      if_neg e7, if_neg e8, if_neg e9, if_neg e10, if_neg e11, if_neg e12,
      if_neg e13, if_neg e14, if_neg e15, if_neg e16, if_neg e17, if_neg e18,
      if_neg e19, if_neg e20, if_neg e21]

/-- C7 witness: a cased alias hits its city, a Unicode-cased name (KELVIN
SIGN in place of K) hits Tokyo, and an unknown city falls back to London. -/
theorem C7_witness :
    Stays.geocode_location "NYC" = (40.7128, -74.0060) ∧
    Stays.geocode_location "TO\u212AYO" = (35.6762, 139.6503) ∧
    Stays.geocode_location "Atlantis" = (51.5074, -0.1278) := by
  have h1 := C7_theorem "NYC"
  have h2 := C7_theorem "TO\u212AYO"
  have h3 := C7_theorem "Atlantis"
  exact ⟨h1.2.1 (by decide), h2.2.2.2.2.1 (by decide),
    h3.2.2.2.2.2.2.2.2.2.2.2.2.2.2.2.2.2.2.2.2.2 (by decide)⟩

/-- C2: the claim says the per-item normalizers are total and return None
rather than crashing on an absent, mistyped or empty slices/segments array.
The code contradicts it: `parse_flight_offer` panics (out-of-bounds `Vec`
index) on an empty `slices` or `segments` array, aborting the whole request.
Absent or mistyped arrays are indeed dropped, and the stay normalizer is
total. -/
theorem C2_theorem :
    Flights.parse_flight_offer emptySlicesOfferJson = .panic ∧
    Flights.parse_flight_offer emptySegmentsOfferJson = .panic ∧
    Flights.parse_flight_offer
      (.obj [("id", .str "x"), ("total_amount", .str "1"),
             ("total_currency", .str "USD")]) = .ok none ∧
    Flights.parse_flight_offer
      (.obj [("id", .str "x"), ("total_amount", .str "1"),
             ("total_currency", .str "USD"), ("slices", .str "bogus")]) =
      .ok none ∧
    Stays.parse_stay_result (.obj []) sampleStayRequest = none :=
  ⟨rfl, rfl, rfl, rfl, rfl⟩

/-- C3 counterexample: a stay item whose amenities array is present but empty
normalizes to an empty amenities list, not to the claimed ["WiFi"]. -/
theorem C3_counterexample :
    Stays.parse_stay_result emptyAmenitiesStayJson sampleStayRequest =
      some emptyAmenitiesStayOffer ∧
    emptyAmenitiesStayOffer.amenities = [] ∧
    ([] : List String) ≠ ["WiFi"] :=
  ⟨rfl, rfl, by decide⟩

/-- C3 (amended): the normalized amenities list is ["WiFi"] exactly when the
provider item's amenities field is missing or not an array; when it is an
array (empty included) the list is the description strings of those elements
that have one, so an empty array yields the empty list. -/
theorem C3_theorem (j : Json) (req : Stays.StaySearchRequest) (o : Stays.StayOffer)
    (h : Stays.parse_stay_result j req = some o) :
    (((j.index "accommodation").index "amenities").asArr = none →
       o.amenities = ["WiFi"]) ∧
    (∀ arr, ((j.index "accommodation").index "amenities").asArr = some arr →
       o.amenities = arr.filterMap (fun a => ((a.index "description").asStr))) := by
  simp only [Stays.parse_stay_result] at h
  split at h
  · cases h
    constructor
    · intro ha; simp [ha]
    · intro arr ha; simp [ha]
  · exact absurd h (by simp)

/-- C3 witness: a nonempty amenities array with one described and one
undescribed element yields exactly the one description. -/
theorem C3_witness :
    ((sampleStayResultJson.index "accommodation").index "amenities").asArr =
      some [.obj [("description", .str "Pool")], .obj [("type", .str "gym")]] ∧
    sampleStayOffer.amenities =
      [Json.obj [("description", .str "Pool")],
       Json.obj [("type", .str "gym")]].filterMap
        (fun a => ((a.index "description").asStr)) := by
  have h := (C3_theorem sampleStayResultJson sampleStayRequest sampleStayOffer rfl).2
    [.obj [("description", .str "Pool")], .obj [("type", .str "gym")]] rfl
  exact ⟨rfl, h⟩

/-- C1 counterexample: a provider array with one item that misses required
fields produces an empty offer list, so the offer count is 0 and not
min(1, 10) = 1. -/
theorem C1_counterexample :
    Flights.flightResponseOfArray [Json.obj []] "req_1" =
      .ok { offers := [], total_results := 1, search_id := "req_1" } ∧
    ([] : List Flights.FlightOffer).length ≠ min [Json.obj []].length 10 :=
  ⟨by decide, by decide⟩

/-- C1 (amended): the offer list length equals the number of items among the
first 10 of the provider array that normalize successfully; it is therefore at
most min(provider_result_count, 10), with equality exactly in the advertised
form when every item among the first 10 normalizes. -/
theorem C1_theorem :
    (∀ (arr : List Json) (sid : String) (resp : Flights.FlightSearchResponse),
       Flights.flightResponseOfArray arr sid = .ok resp →
       resp.offers.length = ((arr.take 10).filterMap Flights.flightParseOpt).length ∧
       resp.offers.length ≤ min arr.length 10 ∧
       ((∀ j ∈ arr.take 10, (Flights.flightParseOpt j).isSome) →
          resp.offers.length = min arr.length 10)) ∧
    (∀ (rd : Json) (req : Stays.StaySearchRequest) (resp : Stays.StaySearchResponse)
       (results : List Json),
       Stays.parse_duffel_stays_response rd req = .ok resp →
       ((rd.getField "data").bind (fun data => data.getField "results")).bind
         Json.asArr = some results →
       resp.offers.length =
         ((results.take 10).filterMap
           (fun result => Stays.parse_stay_result result req)).length ∧
       resp.offers.length ≤ min results.length 10 ∧
       ((∀ j ∈ results.take 10, (Stays.parse_stay_result j req).isSome) →
          resp.offers.length = min results.length 10)) := by
  constructor
  · intro arr sid resp h
    unfold Flights.flightResponseOfArray at h
    split at h
    · exact absurd h (by simp)
    · rename_i os heq
      cases h
      have hos : os = (arr.take 10).filterMap Flights.flightParseOpt :=
        collectFlightOffers_ok_eq heq
      refine ⟨by simp [hos], ?_, ?_⟩
      · calc os.length ≤ (arr.take 10).length := by
              rw [hos]; exact List.length_filterMap_le _ _
          _ = min arr.length 10 := by rw [List.length_take, Nat.min_comm]
      · intro hall
        calc os.length = (arr.take 10).length := by
              rw [hos]; exact length_filterMap_of_all_isSome hall
          _ = min arr.length 10 := by rw [List.length_take, Nat.min_comm]
  · intro rd req resp results h hres
    unfold Stays.parse_duffel_stays_response at h
    split at h
    · exact absurd h (by simp)
    · rename_i search_results heq
      rw [hres] at heq
      cases heq
      cases h
      refine ⟨rfl, ?_, ?_⟩
      · calc ((results.take 10).filterMap
              (fun result => Stays.parse_stay_result result req)).length ≤
              (results.take 10).length := List.length_filterMap_le _ _
          _ = min results.length 10 := by rw [List.length_take, Nat.min_comm]
      · intro hall
        calc ((results.take 10).filterMap
              (fun result => Stays.parse_stay_result result req)).length =
              (results.take 10).length := length_filterMap_of_all_isSome hall
          _ = min results.length 10 := by rw [List.length_take, Nat.min_comm]

/-- C1 witness: a single fully-populated provider item yields exactly
min(1, 10) = 1 offer. -/
theorem C1_witness :
    Flights.flightResponseOfArray [sampleFlightOfferJson] "req_1" =
      .ok { offers := [sampleFlightOffer], total_results := 1, search_id := "req_1" } ∧
    ({ offers := [sampleFlightOffer], total_results := 1,
       search_id := "req_1" } : Flights.FlightSearchResponse).offers.length =
      min [sampleFlightOfferJson].length 10 := by
  have h := (C1_theorem.1 [sampleFlightOfferJson] "req_1"
    { offers := [sampleFlightOffer], total_results := 1, search_id := "req_1" }
    (by decide)).2.2 (by decide)
  exact ⟨by decide, h⟩

/-- C5: `total_results` is the `i32` cast of the full provider result array
length, independent of truncation to 10 and of items dropped during
normalization (for array lengths below 2^31 the cast is the identity). -/
theorem C5_theorem :
    (∀ (arr : List Json) (sid : String) (resp : Flights.FlightSearchResponse),
       Flights.flightResponseOfArray arr sid = .ok resp →
       resp.total_results = i32ofNat arr.length ∧
       (arr.length < 2 ^ 31 → resp.total_results = (arr.length : Int))) ∧
    (∀ (rd : Json) (req : Stays.StaySearchRequest) (resp : Stays.StaySearchResponse)
       (results : List Json),
       Stays.parse_duffel_stays_response rd req = .ok resp →
       ((rd.getField "data").bind (fun data => data.getField "results")).bind
         Json.asArr = some results →
       resp.total_results = i32ofNat results.length ∧
       (results.length < 2 ^ 31 → resp.total_results = (results.length : Int))) := by
  constructor
  · intro arr sid resp h
    unfold Flights.flightResponseOfArray at h
    split at h
    · exact absurd h (by simp)
    · cases h
      exact ⟨rfl, fun hlt => i32ofNat_of_lt hlt⟩
  · intro rd req resp results h hres
    unfold Stays.parse_duffel_stays_response at h
    split at h
    · exact absurd h (by simp)
    · rename_i search_results heq
      rw [hres] at heq
      cases heq
      cases h
      exact ⟨rfl, fun hlt => i32ofNat_of_lt hlt⟩

/-- C5 witness: an 11-item provider array in which no item normalizes still
reports total_results = 11 (while the offer list is empty). -/
theorem C5_witness :
    Flights.flightResponseOfArray (List.replicate 11 (Json.obj [])) "s" =
      .ok { offers := [], total_results := 11, search_id := "s" } ∧
    ({ offers := [], total_results := 11,
       search_id := "s" } : Flights.FlightSearchResponse).total_results =
      (((List.replicate 11 (Json.obj [])).length : Nat) : Int) := by
  have h := (C5_theorem.1 (List.replicate 11 (Json.obj [])) "s"
    { offers := [], total_results := 11, search_id := "s" } (by decide)).2
    (by decide)
  exact ⟨by decide, h⟩

theorem parse_flight_ok_iff (offer : Json) :
    (∃ o, Flights.parse_flight_offer offer = .ok (some o)) ↔
      flightRequiredFieldsResolvable offer = true := by
  constructor
  · rintro ⟨o, ho⟩
    unfold Flights.parse_flight_offer at ho
    split at ho
    · split at ho
      · split at ho
        · exact absurd ho (by simp)
        · split at ho
          · split at ho
            · exact absurd ho (by simp)
            · split at ho
              · simp [flightRequiredFieldsResolvable, *]
              · exact absurd ho (by simp)
          · exact absurd ho (by simp)
      · exact absurd ho (by simp)
    · exact absurd ho (by simp)
  · intro h
    rcases h1 : (offer.index "id").asStr with _ | id
    · simp [flightRequiredFieldsResolvable, h1] at h
    rcases h2 : (offer.index "total_amount").asStr with _ | amt
    · simp [flightRequiredFieldsResolvable, h2] at h
    rcases h3 : (offer.index "total_currency").asStr with _ | cur
    · simp [flightRequiredFieldsResolvable, h3] at h
    rcases h4 : (offer.index "slices").asArr with _ | slices
    · simp [flightRequiredFieldsResolvable, h4] at h
    rcases slices with _ | ⟨first_slice, srest⟩
    · simp [flightRequiredFieldsResolvable, h4] at h
    rcases h5 : (first_slice.index "segments").asArr with _ | segments
    · simp [flightRequiredFieldsResolvable, h4, h5] at h
    rcases segments with _ | ⟨first_segment, grest⟩
    · simp [flightRequiredFieldsResolvable, h4, h5] at h
    rcases h6 : (first_segment.index "departing_at").asStr with _ | dep
    · simp [flightRequiredFieldsResolvable, h4, h5, h6] at h
    rcases h7 : (first_segment.index "arriving_at").asStr with _ | arr
    · simp [flightRequiredFieldsResolvable, h4, h5, h7] at h
    rcases h8 : (first_slice.index "duration").asStr with _ | dur
    · simp [flightRequiredFieldsResolvable, h4, h5, h8] at h
    rcases h9 : ((first_segment.index "marketing_carrier").index "name").asStr with _ | car
    · simp [flightRequiredFieldsResolvable, h4, h5, h9] at h
    rcases h10 : (first_segment.index "marketing_carrier_flight_number").asStr with _ | fn
    · simp [flightRequiredFieldsResolvable, h4, h5, h10] at h
    refine ⟨{ id := id, price := amt, currency := cur, departure_time := dep,
              arrival_time := arr, duration := dur, airline := car,
              flight_number := fn,
              aircraft := ((first_segment.index "aircraft").index "name").asStr,
              stops := i32ofNat (first_segment :: grest).length - 1 }, ?_⟩
    unfold Flights.parse_flight_offer
    simp only [h1, h2, h3, h4, h5, h6, h7, h8, h9, h10]

theorem parse_stay_isSome_iff (result : Json) (req : Stays.StaySearchRequest) :
    (Stays.parse_stay_result result req).isSome = true ↔
      stayRequiredFieldsResolvable result = true := by
  unfold Stays.parse_stay_result stayRequiredFieldsResolvable
  rcases h1 : (result.index "id").asStr with _ | id <;>
    rcases h2 : ((result.index "accommodation").index "name").asStr with _ | nm <;>
      simp [h1, h2]

/-- C4: an Offer built from an item among the first 10 of the provider array
appears in the output if and only if all the domain's required fields (for
flights: id, total amount, currency, first slice's first segment timestamps,
slice duration, carrier name, flight number; for stays: id and accommodation
name) resolve from the item; an item missing a required field contributes no
offer (no placeholder).  The membership statements are conditional on the
pipeline producing a response (see C2 for the panic case). -/
theorem C4_theorem :
    (∀ offer : Json,
       (∃ o, Flights.parse_flight_offer offer = .ok (some o)) ↔
         flightRequiredFieldsResolvable offer = true) ∧
    (∀ (result : Json) (req : Stays.StaySearchRequest),
       (Stays.parse_stay_result result req).isSome = true ↔
         stayRequiredFieldsResolvable result = true) ∧
    (∀ (arr : List Json) (sid : String) (resp : Flights.FlightSearchResponse) (j : Json),
       Flights.flightResponseOfArray arr sid = .ok resp → j ∈ arr.take 10 →
       ((∃ o, Flights.parse_flight_offer j = .ok (some o) ∧ o ∈ resp.offers) ↔
         flightRequiredFieldsResolvable j = true)) ∧
    (∀ (rd : Json) (req : Stays.StaySearchRequest) (resp : Stays.StaySearchResponse)
       (results : List Json) (j : Json),
       Stays.parse_duffel_stays_response rd req = .ok resp →
       ((rd.getField "data").bind (fun data => data.getField "results")).bind
         Json.asArr = some results →
       j ∈ results.take 10 →
       ((∃ o, Stays.parse_stay_result j req = some o ∧ o ∈ resp.offers) ↔
         stayRequiredFieldsResolvable j = true)) := by
  refine ⟨parse_flight_ok_iff, parse_stay_isSome_iff, ?_, ?_⟩
  · intro arr sid resp j h hj
    unfold Flights.flightResponseOfArray at h
    split at h
    · exact absurd h (by simp)
    · rename_i os heq
      cases h
      have hos : os = (arr.take 10).filterMap Flights.flightParseOpt :=
        collectFlightOffers_ok_eq heq
      constructor
      · rintro ⟨o, ho, _⟩
        exact (parse_flight_ok_iff j).mp ⟨o, ho⟩
      · intro hres
        obtain ⟨o, ho⟩ := (parse_flight_ok_iff j).mpr hres
        refine ⟨o, ho, ?_⟩
        rw [hos]
        exact List.mem_filterMap.mpr ⟨j, hj, by simp [Flights.flightParseOpt, ho]⟩
  · intro rd req resp results j h hres hj
    unfold Stays.parse_duffel_stays_response at h
    split at h
    · exact absurd h (by simp)
    · rename_i search_results heq
      rw [hres] at heq
      cases heq
      cases h
      constructor
      · rintro ⟨o, ho, _⟩
        exact (parse_stay_isSome_iff j req).mp (by simp [ho])
      · intro hr
        have := (parse_stay_isSome_iff j req).mpr hr
        obtain ⟨o, ho⟩ := Option.isSome_iff_exists.mp this
        exact ⟨o, ho, List.mem_filterMap.mpr ⟨j, hj, ho⟩⟩

/-- C4 witness: a fully-populated item among the first 10 yields an offer that
is present in the response, and its required fields indeed resolve. -/
theorem C4_witness :
    flightRequiredFieldsResolvable sampleFlightOfferJson = true ∧
    (∃ o, Flights.parse_flight_offer sampleFlightOfferJson = .ok (some o) ∧
       o ∈ ({ offers := [sampleFlightOffer], total_results := 2,
              search_id := "r" } : Flights.FlightSearchResponse).offers) := by
  have h := C4_theorem.2.2.1 [Json.obj [], sampleFlightOfferJson] "r"
    { offers := [sampleFlightOffer], total_results := 2, search_id := "r" }
    sampleFlightOfferJson (by decide)
    (by simp [show List.take 10 [Json.obj [], sampleFlightOfferJson] =
          [Json.obj [], sampleFlightOfferJson] from rfl])
  exact ⟨by decide, h.mpr (by decide)⟩

/-- C6: for tools/call with an unknown tool name the dispatcher answers
method-not-found (-32601); with the known tool name but undecodable arguments
it answers invalid-params (-32602) without consulting the provider pipeline;
with decoded arguments and a failing pipeline it answers the provider-failure
code (-32000); and any method other than initialize, tools/list and tools/call
answers method-not-found.  Both services. -/
theorem C6_theorem :
    (∀ (pipeline : Flights.FlightSearchRequest → Except String Flights.FlightSearchResponse)
       (request : Json),
       (((request.index "method").asStr).getD "" = "tools/call" →
         ((((request.index "params").index "name").asStr).getD "" ≠ "search_flights" →
           Flights.handle_request pipeline request =
             Flights.errorResponse (-32601) "Method not found" (request.index "id")) ∧
         ((((request.index "params").index "name").asStr).getD "" = "search_flights" →
           (Flights.decodeFlightSearchRequest ((request.index "params").index "arguments") = none →
             Flights.handle_request pipeline request =
               Flights.errorResponse (-32602)
                 "Invalid parameters: could not decode arguments" (request.index "id") ∧
             (∀ pipeline2, Flights.handle_request pipeline2 request =
                Flights.handle_request pipeline request)) ∧
           (∀ r e, Flights.decodeFlightSearchRequest ((request.index "params").index "arguments") =
                some r →
              pipeline r = .error e →
              Flights.handle_request pipeline request =
                Flights.errorResponse (-32000) ("Flight search failed: " ++ e)
                  (request.index "id")))) ∧
       (((request.index "method").asStr).getD "" ∉
           (["initialize", "tools/list", "tools/call"] : List String) →
         Flights.handle_request pipeline request =
           Flights.errorResponse (-32601) "Method not found" (request.index "id"))) ∧
    (∀ (pipeline : Stays.StaySearchRequest → Except String Stays.StaySearchResponse)
       (request : Json),
       (((request.index "method").asStr).getD "" = "tools/call" →
         ((((request.index "params").index "name").asStr).getD "" ≠ "search_stays" →
           Stays.handle_request pipeline request =
             Flights.errorResponse (-32601) "Method not found" (request.index "id")) ∧
         ((((request.index "params").index "name").asStr).getD "" = "search_stays" →
           (Stays.decodeStaySearchRequest ((request.index "params").index "arguments") = none →
             Stays.handle_request pipeline request =
               Flights.errorResponse (-32602)
                 "Invalid parameters: could not decode arguments" (request.index "id") ∧
             (∀ pipeline2, Stays.handle_request pipeline2 request =
                Stays.handle_request pipeline request)) ∧
           (∀ r e, Stays.decodeStaySearchRequest ((request.index "params").index "arguments") =
                some r →
              pipeline r = .error e →
              Stays.handle_request pipeline request =
                Flights.errorResponse (-32000) ("Stay search failed: " ++ e)
                  (request.index "id")))) ∧
       (((request.index "method").asStr).getD "" ∉
           (["initialize", "tools/list", "tools/call"] : List String) →
         Stays.handle_request pipeline request =
           Flights.errorResponse (-32601) "Method not found" (request.index "id"))) := by
  constructor
  · intro pipeline request
    constructor
    · intro hm
      refine ⟨fun hn => ?_, fun hn => ⟨fun hdec => ⟨?_, fun pipeline2 => ?_⟩,
        fun r e hdec hpipe => ?_⟩⟩
      · simp [Flights.handle_request, hm, if_neg hn]
      · simp [Flights.handle_request, hm, hn, hdec]
      · simp [Flights.handle_request, hm, hn, hdec]
      · simp [Flights.handle_request, hm, hn, hdec, hpipe]
    · intro hm
      have e1 : ((request.index "method").asStr).getD "" ≠ "initialize" :=
        fun e => hm (by simp [e])
      have e2 : ((request.index "method").asStr).getD "" ≠ "tools/list" :=
        fun e => hm (by simp [e])
      have e3 : ((request.index "method").asStr).getD "" ≠ "tools/call" :=
        fun e => hm (by simp [e])
      simp [Flights.handle_request, if_neg e1, if_neg e2, if_neg e3]
  · intro pipeline request
    constructor
    · intro hm
      refine ⟨fun hn => ?_, fun hn => ⟨fun hdec => ⟨?_, fun pipeline2 => ?_⟩,
        fun r e hdec hpipe => ?_⟩⟩
      · simp [Stays.handle_request, hm, if_neg hn]
      · simp [Stays.handle_request, hm, hn, hdec]
      · simp [Stays.handle_request, hm, hn, hdec]
      · simp [Stays.handle_request, hm, hn, hdec, hpipe]
    · intro hm
      have e1 : ((request.index "method").asStr).getD "" ≠ "initialize" :=
        fun e => hm (by simp [e])
      have e2 : ((request.index "method").asStr).getD "" ≠ "tools/list" :=
        fun e => hm (by simp [e])
      have e3 : ((request.index "method").asStr).getD "" ≠ "tools/call" :=
        fun e => hm (by simp [e])
      simp [Stays.handle_request, if_neg e1, if_neg e2, if_neg e3]

/-- C6 witness: concrete requests hitting every branch — unknown tool,
undecodable arguments (request not sent to the pipeline), failing pipeline,
unknown method, and the stays service's undecodable arguments. -/
theorem C6_witness :
    Flights.handle_request (fun _ => .error "")
        (.obj [("method", .str "tools/call"),
               ("params", .obj [("name", .str "bogus")]), ("id", .int 1)]) =
      Flights.errorResponse (-32601) "Method not found"
        ((Json.obj [("method", .str "tools/call"),
               ("params", .obj [("name", .str "bogus")]),
               ("id", .int 1)]).index "id") ∧
    Flights.handle_request (fun _ => .error "")
        (.obj [("method", .str "tools/call"),
               ("params", .obj [("name", .str "search_flights"),
                                ("arguments", .obj [])]), ("id", .int 2)]) =
      Flights.errorResponse (-32602) "Invalid parameters: could not decode arguments"
        ((Json.obj [("method", .str "tools/call"),
               ("params", .obj [("name", .str "search_flights"),
                                ("arguments", .obj [])]),
               ("id", .int 2)]).index "id") ∧
    Flights.handle_request (fun _ => .error "boom")
        (.obj [("method", .str "tools/call"),
               ("params", .obj [("name", .str "search_flights"),
                 ("arguments", .obj [("origin", .str "JFK"),
                                     ("destination", .str "LHR"),
                                     ("departure_date", .str "2025-06-01")])]),
               ("id", .int 3)]) =
      Flights.errorResponse (-32000) ("Flight search failed: " ++ "boom")
        ((Json.obj [("method", .str "tools/call"),
               ("params", .obj [("name", .str "search_flights"),
                 ("arguments", .obj [("origin", .str "JFK"),
                                     ("destination", .str "LHR"),
                                     ("departure_date", .str "2025-06-01")])]),
               ("id", .int 3)]).index "id") ∧
    Flights.handle_request (fun _ => .error "")
        (.obj [("method", .str "nope"), ("id", .int 4)]) =
      Flights.errorResponse (-32601) "Method not found"
        ((Json.obj [("method", .str "nope"), ("id", .int 4)]).index "id") ∧
    Stays.handle_request (fun _ => .error "")
        (.obj [("method", .str "tools/call"),
               ("params", .obj [("name", .str "search_stays"),
                                ("arguments", .obj [])]), ("id", .int 5)]) =
      Flights.errorResponse (-32602) "Invalid parameters: could not decode arguments"
        ((Json.obj [("method", .str "tools/call"),
               ("params", .obj [("name", .str "search_stays"),
                                ("arguments", .obj [])]),
               ("id", .int 5)]).index "id") := by
  refine ⟨?_, ?_, ?_, ?_, ?_⟩
  · exact ((C6_theorem.1 _ _).1 (by decide)).1 (by decide)
  · exact ((((C6_theorem.1 _ _).1 (by decide)).2 (by decide)).1 (by decide)).1
  · exact (((C6_theorem.1 _ _).1 (by decide)).2 (by decide)).2
      { origin := "JFK", destination := "LHR", departure_date := "2025-06-01",
        return_date := none, passengers := none, cabin_class := none }
      "boom" (by decide) rfl
  · exact (C6_theorem.1 _ _).2 (by decide)
  · exact ((((C6_theorem.2 _ _).1 (by decide)).2 (by decide)).1 (by decide)).1

theorem flightEntry_newline (i : Nat) (o : Flights.FlightOffer) :
    ∃ e, Flights.flightEntry i o = e ++ "\n" := ⟨_, rfl⟩

theorem stayEntry_newline (i : Nat) (o : Stays.StayOffer) :
    ∃ e, Stays.stayEntry i o = e ++ "\n" := ⟨_, rfl⟩

theorem formatFlightLoop_append (offers : List Flights.FlightOffer) :
    ∀ (i : Nat) (acc : String),
      ∃ t, Flights.formatFlightLoop offers i acc = acc ++ t := by
  induction offers with
  | nil => intro i acc; exact ⟨"", by simp [Flights.formatFlightLoop]⟩
  | cons o rest ih =>
    intro i acc
    obtain ⟨t, ht⟩ := ih (i + 1) (acc ++ Flights.flightEntry i o)
    exact ⟨Flights.flightEntry i o ++ t, by
      simp only [Flights.formatFlightLoop]
      rw [ht, String.append_assoc]⟩

theorem formatStayLoop_append (offers : List Stays.StayOffer) :
    ∀ (i : Nat) (acc : String),
      ∃ t, Stays.formatStayLoop offers i acc = acc ++ t := by
  induction offers with
  | nil => intro i acc; exact ⟨"", by simp [Stays.formatStayLoop]⟩
  | cons o rest ih =>
    intro i acc
    obtain ⟨t, ht⟩ := ih (i + 1) (acc ++ Stays.stayEntry i o)
    exact ⟨Stays.stayEntry i o ++ t, by
      simp only [Stays.formatStayLoop]
      rw [ht, String.append_assoc]⟩

theorem formatFlightLoop_decomp (offers : List Flights.FlightOffer) :
    ∀ (i : Nat) (acc : String) (j : Nat) (h : j < offers.length),
      (∃ a0, acc = a0 ++ "\n") →
      ∃ a b, Flights.formatFlightLoop offers i acc =
        (a ++ "\n") ++ (Flights.flightEntry (i + j) (offers.get ⟨j, h⟩) ++ b) := by
  induction offers with
  | nil => intro i acc j h _; exact absurd h (by simp)
  | cons o rest ih =>
    intro i acc j h hacc
    cases j with
    | zero =>
      obtain ⟨a0, ha0⟩ := hacc
      obtain ⟨t, ht⟩ := formatFlightLoop_append rest (i + 1) (acc ++ Flights.flightEntry i o)
      refine ⟨a0, t, ?_⟩
      simp only [Flights.formatFlightLoop]
      rw [ht, ha0]
      simp [String.append_assoc]
    | succ j' =>
      have hlt : j' < rest.length := Nat.lt_of_succ_lt_succ h
      obtain ⟨e, he⟩ := flightEntry_newline i o
      obtain ⟨a, b, hab⟩ := ih (i + 1) (acc ++ Flights.flightEntry i o) j' hlt
        ⟨acc ++ e, by rw [he, String.append_assoc]⟩
      refine ⟨a, b, ?_⟩
      simp only [Flights.formatFlightLoop]
      rw [hab]
      have hidx : i + 1 + j' = i + (j' + 1) := by omega
      rw [hidx]
      rfl

theorem formatStayLoop_decomp (offers : List Stays.StayOffer) :
    ∀ (i : Nat) (acc : String) (j : Nat) (h : j < offers.length),
      (∃ a0, acc = a0 ++ "\n") →
      ∃ a b, Stays.formatStayLoop offers i acc =
        (a ++ "\n") ++ (Stays.stayEntry (i + j) (offers.get ⟨j, h⟩) ++ b) := by
  induction offers with
  | nil => intro i acc j h _; exact absurd h (by simp)
  | cons o rest ih =>
    intro i acc j h hacc
    cases j with
    | zero =>
      obtain ⟨a0, ha0⟩ := hacc
      obtain ⟨t, ht⟩ := formatStayLoop_append rest (i + 1) (acc ++ Stays.stayEntry i o)
      refine ⟨a0, t, ?_⟩
      simp only [Stays.formatStayLoop]
      rw [ht, ha0]
      simp [String.append_assoc]
    | succ j' =>
      have hlt : j' < rest.length := Nat.lt_of_succ_lt_succ h
      obtain ⟨e, he⟩ := stayEntry_newline i o
      obtain ⟨a, b, hab⟩ := ih (i + 1) (acc ++ Stays.stayEntry i o) j' hlt
        ⟨acc ++ e, by rw [he, String.append_assoc]⟩
      refine ⟨a, b, ?_⟩
      simp only [Stays.formatStayLoop]
      rw [hab]
      have hidx : i + 1 + j' = i + (j' + 1) := by omega
      rw [hidx]
      rfl

theorem format_flight_nonempty (resp : Flights.FlightSearchResponse)
    (h : resp.offers ≠ []) :
    Flights.format_flight_results resp =
      Flights.formatFlightLoop resp.offers 0
        ("Found " ++ toString resp.total_results ++ " flight offers:\n\n") ++
      ("Search ID: " ++ resp.search_id) := by
  simp [Flights.format_flight_results, h]

theorem format_stay_nonempty (resp : Stays.StaySearchResponse)
    (h : resp.offers ≠ []) :
    Stays.format_stay_results resp =
      Stays.formatStayLoop resp.offers 0
        ("Found " ++ toString resp.total_results ++ " hotel offers in " ++
          resp.location_searched ++ ":\n\n") ++
      ("Search ID: " ++ resp.search_id) := by
  simp [Stays.format_stay_results, h]

theorem flightEntry_head (k : Nat) (o : Flights.FlightOffer) :
    ∃ t, Flights.flightEntry k o = toString (k + 1) ++ (". " ++ t) :=
  ⟨o.airline ++ " " ++ o.flight_number ++ " - " ++ o.price ++ " " ++ o.currency ++
     "\n" ++ "   Departure: " ++ o.departure_time ++ "\n" ++ "   Arrival: " ++
     o.arrival_time ++ "\n" ++ "   Duration: " ++ o.duration ++ "\n" ++
     (if o.stops > 0 then "   Stops: " ++ toString o.stops ++ "\n"
      else "   Direct flight\n") ++
     (match o.aircraft with
      | some aircraft => "   Aircraft: " ++ aircraft ++ "\n"
      | none => "") ++ "\n",
   by
     apply String.ext
     simp [Flights.flightEntry, String.data_append, List.append_assoc]⟩

theorem stayEntry_head (k : Nat) (o : Stays.StayOffer) :
    ∃ t, Stays.stayEntry k o = toString (k + 1) ++ (". " ++ t) :=
  ⟨o.hotel_name ++ " - " ++ o.total_amount ++ " " ++ o.currency ++ "\n" ++
     (match o.hotel_rating with
      | some rating => "   Rating: " ++ Stays.fmtFixed1 rating ++ "/5.0 stars\n"
      | none => "") ++
     "   Location: " ++ o.location ++ "\n" ++ "   Check-in: " ++ o.check_in_date ++
     " | Check-out: " ++ o.check_out_date ++ "\n" ++
     (match o.room_type with
      | some room_type => "   Room: " ++ room_type ++ "\n"
      | none => "") ++
     (if o.amenities.isEmpty then ""
      else "   Amenities: " ++ String.intercalate ", " o.amenities ++ "\n") ++
     (match o.cancellation_policy with
      | some policy => "   Cancellation: " ++ policy ++ "\n"
      | none => "") ++ "\n",
   by
     apply String.ext
     simp [Stays.stayEntry, String.data_append, List.append_assoc]⟩

theorem flightEntry_direct (k : Nat) (o : Flights.FlightOffer) (h : o.stops ≤ 0) :
    ∃ x y, Flights.flightEntry k o = x ++ ("   Direct flight\n" ++ y) :=
  ⟨toString (k + 1) ++ ". " ++ o.airline ++ " " ++ o.flight_number ++ " - " ++
     o.price ++ " " ++ o.currency ++ "\n" ++ "   Departure: " ++ o.departure_time ++
     "\n" ++ "   Arrival: " ++ o.arrival_time ++ "\n" ++ "   Duration: " ++
     o.duration ++ "\n",
   (match o.aircraft with
    | some aircraft => "   Aircraft: " ++ aircraft ++ "\n"
    | none => "") ++ "\n",
   by
     apply String.ext
     simp only [Flights.flightEntry]
     rw [if_neg (by omega : ¬ o.stops > 0)]
     simp [String.data_append, List.append_assoc]⟩

theorem flightEntry_stopsLine (k : Nat) (o : Flights.FlightOffer) (h : 0 < o.stops) :
    ∃ x y, Flights.flightEntry k o =
      x ++ ("   Stops: " ++ (toString o.stops ++ ("\n" ++ y))) :=
  ⟨toString (k + 1) ++ ". " ++ o.airline ++ " " ++ o.flight_number ++ " - " ++
     o.price ++ " " ++ o.currency ++ "\n" ++ "   Departure: " ++ o.departure_time ++
     "\n" ++ "   Arrival: " ++ o.arrival_time ++ "\n" ++ "   Duration: " ++
     o.duration ++ "\n",
   (match o.aircraft with
    | some aircraft => "   Aircraft: " ++ aircraft ++ "\n"
    | none => "") ++ "\n",
   by
     apply String.ext
     simp only [Flights.flightEntry]
     rw [if_pos h]
     simp [String.data_append, List.append_assoc]⟩

theorem flightEntry_durDirect (k : Nat) (o : Flights.FlightOffer)
    (h1 : o.stops ≤ 0) (h2 : o.aircraft = none) :
    ∃ x y, Flights.flightEntry k o =
      x ++ ("   Duration: " ++
        (o.duration ++ ("\n" ++ ("   Direct flight\n" ++ ("\n" ++ y))))) :=
  ⟨toString (k + 1) ++ ". " ++ o.airline ++ " " ++ o.flight_number ++ " - " ++
     o.price ++ " " ++ o.currency ++ "\n" ++ "   Departure: " ++ o.departure_time ++
     "\n" ++ "   Arrival: " ++ o.arrival_time ++ "\n",
   "",
   by
     apply String.ext
     simp only [Flights.flightEntry, h2]
     rw [if_neg (by omega : ¬ o.stops > 0)]
     simp [String.data_append, List.append_assoc]⟩

theorem stayEntry_minimal (k : Nat) (o : Stays.StayOffer)
    (hr : o.hotel_rating = none) (hroom : o.room_type = none)
    (ham : o.amenities = []) (hc : o.cancellation_policy = none) :
    Stays.stayEntry k o =
      toString (k + 1) ++ (". " ++ (o.hotel_name ++ (" - " ++ (o.total_amount ++
        (" " ++ (o.currency ++ ("\n" ++ ("   Location: " ++ (o.location ++
        ("\n" ++ ("   Check-in: " ++ (o.check_in_date ++ (" | Check-out: " ++
        (o.check_out_date ++ ("\n" ++ "\n"))))))))))))))) := by
  apply String.ext
  simp [Stays.stayEntry, hr, hroom, ham, hc, String.data_append, List.append_assoc]

/-- C8 counterexample: the flight formatter can output the substring
"Stops: 0" after all — not from the stops detail line, but interpolated from
an offer whose airline field is itself the string "Stops: 0". -/
theorem C8_counterexample :
    List.IsInfix ("Stops: 0".data)
      ((Flights.format_flight_results
        { offers := [stopsZeroNamedOffer], total_results := 1,
          search_id := "s" }).data) := by
  decide

/-- C8 (amended): the formatter is a pure function of the SearchResponse; an
empty offer list produces exactly the one-line no-results sentence; a
non-empty list yields, for every offer index j, a 1-based numbered block
marker "(j+1). " right after a line break, and the text ends with
"Search ID: " followed by the search id.  An offer with stops at most 0
contributes the "   Direct flight" line and, when its aircraft is absent, its
duration line is immediately followed by "   Direct flight" and the blank
block terminator with no line between (no aircraft line at all); an offer
with positive stops contributes "   Stops: " followed by that count.  A stay
offer with no rating, no room type, no amenities and no cancellation policy
produces a block consisting of exactly the identity line, the location line,
the check-in/check-out line and the blank terminator.  The substring
"Stops: 0" can still occur when an offer's own text fields contain it. -/
theorem C8_theorem :
    (∀ resp : Flights.FlightSearchResponse,
      (resp.offers = [] →
        Flights.format_flight_results resp =
          "No flights found for the specified criteria.") ∧
      (resp.offers ≠ [] →
        (∃ a, Flights.format_flight_results resp =
          a ++ ("Search ID: " ++ resp.search_id)) ∧
        (∀ j (h : j < resp.offers.length),
          (∃ a b, Flights.format_flight_results resp =
            a ++ ("\n" ++ (toString (j + 1) ++ (". " ++ b)))) ∧
          ((resp.offers.get ⟨j, h⟩).stops ≤ 0 →
            ∃ a b, Flights.format_flight_results resp =
              a ++ ("   Direct flight\n" ++ b)) ∧
          (0 < (resp.offers.get ⟨j, h⟩).stops →
            ∃ a b, Flights.format_flight_results resp =
              a ++ ("   Stops: " ++
                (toString (resp.offers.get ⟨j, h⟩).stops ++ ("\n" ++ b)))) ∧
          ((resp.offers.get ⟨j, h⟩).stops ≤ 0 ∧
              (resp.offers.get ⟨j, h⟩).aircraft = none →
            ∃ a b, Flights.format_flight_results resp =
              a ++ ("   Duration: " ++
                ((resp.offers.get ⟨j, h⟩).duration ++
                  ("\n" ++ ("   Direct flight\n" ++ ("\n" ++ b))))))))) ∧
    (∀ resp : Stays.StaySearchResponse,
      (resp.offers = [] →
        Stays.format_stay_results resp =
          "No hotels found in " ++ resp.location_searched ++
            " for the specified dates.") ∧
      (resp.offers ≠ [] →
        (∃ a, Stays.format_stay_results resp =
          a ++ ("Search ID: " ++ resp.search_id)) ∧
        (∀ j (h : j < resp.offers.length),
          (∃ a b, Stays.format_stay_results resp =
            a ++ ("\n" ++ (toString (j + 1) ++ (". " ++ b)))) ∧
          ((resp.offers.get ⟨j, h⟩).hotel_rating = none ∧
              (resp.offers.get ⟨j, h⟩).room_type = none ∧
              (resp.offers.get ⟨j, h⟩).amenities = [] ∧
              (resp.offers.get ⟨j, h⟩).cancellation_policy = none →
            ∃ a b, Stays.format_stay_results resp =
              a ++ ("\n" ++ (toString (j + 1) ++ (". " ++
                ((resp.offers.get ⟨j, h⟩).hotel_name ++ (" - " ++
                ((resp.offers.get ⟨j, h⟩).total_amount ++ (" " ++
                ((resp.offers.get ⟨j, h⟩).currency ++ ("\n" ++
                ("   Location: " ++ ((resp.offers.get ⟨j, h⟩).location ++
                ("\n" ++ ("   Check-in: " ++
                ((resp.offers.get ⟨j, h⟩).check_in_date ++ (" | Check-out: " ++
                ((resp.offers.get ⟨j, h⟩).check_out_date ++ ("\n" ++
                ("\n" ++ b)))))))))))))))))))))) := by
  constructor
  · intro resp
    constructor
    · intro h
      simp [Flights.format_flight_results, h]
    · intro h
      have hfmt := format_flight_nonempty resp h
      refine ⟨⟨_, hfmt⟩, ?_⟩
      intro j hj
      have hacc : ∃ a0, ("Found " ++ toString resp.total_results ++
          " flight offers:\n\n" : String) = a0 ++ "\n" :=
        ⟨"Found " ++ toString resp.total_results ++ " flight offers:\n",
         by apply String.ext; simp [String.data_append, List.append_assoc]⟩
      obtain ⟨a, b, hab⟩ := formatFlightLoop_decomp resp.offers 0
        ("Found " ++ toString resp.total_results ++ " flight offers:\n\n") j hj hacc
      rw [Nat.zero_add] at hab
      refine ⟨?_, ?_, ?_, ?_⟩
      · obtain ⟨t, ht⟩ := flightEntry_head j (resp.offers.get ⟨j, hj⟩)
        refine ⟨a, t ++ b ++ ("Search ID: " ++ resp.search_id), ?_⟩
        rw [hfmt, hab, ht]
        apply String.ext
        simp [String.data_append, List.append_assoc]
      · intro hs
        obtain ⟨x, y, hxy⟩ := flightEntry_direct j (resp.offers.get ⟨j, hj⟩) hs
        refine ⟨a ++ "\n" ++ x, y ++ b ++ ("Search ID: " ++ resp.search_id), ?_⟩
        rw [hfmt, hab, hxy]
        apply String.ext
        simp [String.data_append, List.append_assoc]
      · intro hs
        obtain ⟨x, y, hxy⟩ := flightEntry_stopsLine j (resp.offers.get ⟨j, hj⟩) hs
        refine ⟨a ++ "\n" ++ x, y ++ b ++ ("Search ID: " ++ resp.search_id), ?_⟩
        rw [hfmt, hab, hxy]
        apply String.ext
        simp [String.data_append, List.append_assoc]
      · rintro ⟨hs, haircraft⟩
        obtain ⟨x, y, hxy⟩ :=
          flightEntry_durDirect j (resp.offers.get ⟨j, hj⟩) hs haircraft
        refine ⟨a ++ "\n" ++ x, y ++ b ++ ("Search ID: " ++ resp.search_id), ?_⟩
        rw [hfmt, hab, hxy]
        apply String.ext
        simp [String.data_append, List.append_assoc]
  · intro resp
    constructor
    · intro h
      simp [Stays.format_stay_results, h]
    · intro h
      have hfmt := format_stay_nonempty resp h
      refine ⟨⟨_, hfmt⟩, ?_⟩
      intro j hj
      have hacc : ∃ a0, ("Found " ++ toString resp.total_results ++
          " hotel offers in " ++ resp.location_searched ++ ":\n\n" : String) =
            a0 ++ "\n" :=
        ⟨"Found " ++ toString resp.total_results ++ " hotel offers in " ++
           resp.location_searched ++ ":\n",
         by apply String.ext; simp [String.data_append, List.append_assoc]⟩
      obtain ⟨a, b, hab⟩ := formatStayLoop_decomp resp.offers 0
        ("Found " ++ toString resp.total_results ++ " hotel offers in " ++
          resp.location_searched ++ ":\n\n") j hj hacc
      rw [Nat.zero_add] at hab
      constructor
      · obtain ⟨t, ht⟩ := stayEntry_head j (resp.offers.get ⟨j, hj⟩)
        refine ⟨a, t ++ b ++ ("Search ID: " ++ resp.search_id), ?_⟩
        rw [hfmt, hab, ht]
        apply String.ext
        simp [String.data_append, List.append_assoc]
      · rintro ⟨hr, hroom, ham, hc⟩
        have hmin := stayEntry_minimal j (resp.offers.get ⟨j, hj⟩) hr hroom ham hc
        refine ⟨a, b ++ ("Search ID: " ++ resp.search_id), ?_⟩
        rw [hfmt, hab, hmin]
        apply String.ext
        simp [String.data_append, List.append_assoc]

/-- C8 witness: a response with one direct, aircraft-less flight offer and a
response with one bare stay offer, with the numbered marker, the search-id
ending, the Direct-flight line and the minimal stay block all exhibited; plus
the empty-list sentences. -/
theorem C8_witness :
    Flights.format_flight_results
        { offers := [], total_results := 0, search_id := "e" } =
      "No flights found for the specified criteria." ∧
    (∃ a, Flights.format_flight_results
        { offers := [sampleFlightOffer], total_results := 1, search_id := "req_1" } =
      a ++ ("Search ID: " ++ "req_1")) ∧
    (∃ a b, Flights.format_flight_results
        { offers := [sampleFlightOffer], total_results := 1, search_id := "req_1" } =
      a ++ ("\n" ++ (toString (0 + 1) ++ (". " ++ b)))) ∧
    (∃ a b, Flights.format_flight_results
        { offers := [sampleFlightOffer], total_results := 1, search_id := "req_1" } =
      a ++ ("   Direct flight\n" ++ b)) ∧
    Stays.format_stay_results
        { offers := [], total_results := 0, search_id := "e",
          location_searched := "Paris" } =
      "No hotels found in " ++ "Paris" ++ " for the specified dates." ∧
    (∃ a b, Stays.format_stay_results
        { offers := [emptyAmenitiesStayOffer], total_results := 1,
          search_id := "rq", location_searched := "Paris" } =
      a ++ ("\n" ++ (toString (0 + 1) ++ (". " ++ ("Hotel Empty" ++ (" - " ++
        ("0.00" ++ (" " ++ ("USD" ++ ("\n" ++ ("   Location: " ++ ("Paris" ++
        ("\n" ++ ("   Check-in: " ++ ("2025-06-01" ++ (" | Check-out: " ++
        ("2025-06-03" ++ ("\n" ++ ("\n" ++ b))))))))))))))))))) := by
  have hempty : Flights.format_flight_results
      { offers := [], total_results := 0, search_id := "e" } =
      "No flights found for the specified criteria." :=
    (C8_theorem.1 _).1 rfl
  have hsempty : Stays.format_stay_results
      { offers := [], total_results := 0, search_id := "e",
        location_searched := "Paris" } =
      "No hotels found in " ++ "Paris" ++ " for the specified dates." :=
    (C8_theorem.2 _).1 rfl
  have hf2 := (C8_theorem.1
    { offers := [sampleFlightOffer], total_results := 1,
      search_id := "req_1" }).2 (by simp)
  have hs2 := (C8_theorem.2
    { offers := [emptyAmenitiesStayOffer], total_results := 1,
      search_id := "rq", location_searched := "Paris" }).2 (by simp)
  exact ⟨hempty, hf2.1, (hf2.2 0 (by simp)).1,
    (hf2.2 0 (by simp)).2.1 (by decide), hsempty,
    (hs2.2 0 (by simp)).2 ⟨rfl, rfl, rfl, rfl⟩⟩
